import Mathlib

/-!
Verification development for the pptx2pdf repository (src/app.py, src/libreoffice.py).

The Python source is shallowly embedded: every external effect (environment
variables, filesystem existence checks, the LibreOffice subprocess, the
downstream HTTP service, JSON decoding) is an explicit oracle field of an
environment structure, and each request handler is a pure function from such
an environment to its HTTP result together with a trace of the files it
persisted, the files remaining on disk once the request (including any
scheduled background cleanup) has finished, and the downstream posts it made.
-/

set_option autoImplicit false

namespace Pptx2Pdf

/-! ## Python string / pathlib primitives -/

/-- Python `s[:n]` on a `str`: the first `n` characters. -/
def pyTake (s : String) (n : Nat) : String := ⟨s.data.take n⟩

/-- Python `s.startswith(pre)` (character-level). -/
def pyStartsWith (s pre : String) : Bool := pre.data.isPrefixOf s.data

/-- Python `s.lower()` restricted to ASCII letters (the only case that matters
for comparison against the ASCII literals `.ppt` / `.pptx`). -/
def strLower (s : String) : String := ⟨s.data.map Char.toLower⟩

/-- Substring test: does `needle` occur contiguously inside `hay`? -/
def strContains (hay needle : String) : Bool :=
  (List.range (hay.data.length + 1)).any fun i => needle.data.isPrefixOf (hay.data.drop i)

/-- Python `a or b` where `a : Optional[str]`, `b : Optional[str]`:
`a` is returned when it is truthy (non-`None` and non-empty), else `b`. -/
def orOpt (a b : Option String) : Option String :=
  match a with
  | some s => if s = "" then b else some s
  | none => b

/-- Python `a or b` where `a : Optional[str]` and `b : str`. -/
def pyOrStr (a : Option String) (b : String) : String :=
  match a with
  | some s => if s = "" then b else s
  | none => b

/-- Truthiness of an optional string: `some s` with `s` non-empty, else `none`.
Models Python `if x:` on an `Optional[str]`. -/
def pyTruthy (a : Option String) : Option String :=
  match a with
  | some s => if s = "" then none else some s
  | none => none

/-- Split a character list at every occurrence of `sep` (like `str.split(sep)`). -/
def splitOnChar (sep : Char) : List Char → List (List Char)
  | [] => [[]]
  | c :: cs =>
    if c = sep then [] :: splitOnChar sep cs
    else
      match splitOnChar sep cs with
      | [] => [[c]]
      | p :: ps => (c :: p) :: ps

/-- Index of the last `.` in a character list (Python `name.rfind('.')`),
`none` when there is no dot. -/
def rfindDot : List Char → Option Nat
  | [] => none
  | c :: cs =>
    match rfindDot cs with
    | some i => some (i + 1)
    | none => if c = '.' then some 0 else none

/-- The components of a POSIX path as `pathlib` parses them: split on `/`,
dropping empty components and `.` components (the root is not a name). -/
def pathNameChars (cs : List Char) : List Char :=
  ((splitOnChar '/' cs).filter fun p => p ≠ [] && p ≠ ['.']).getLast?.getD []

/-- `PurePosixPath(s).name`. -/
def pathName (s : String) : String := ⟨pathNameChars s.data⟩

/-- Suffix of a path name: `name[i:]` for the last dot index `i` when
`0 < i < len(name) - 1`, else empty (CPython `PurePath.suffix`). -/
def suffixChars (n : List Char) : List Char :=
  match rfindDot n with
  | some i => if 0 < i ∧ i + 1 < n.length then n.drop i else []
  | none => []

/-- Stem of a path name: `name[:i]` for the last dot index `i` when
`0 < i < len(name) - 1`, else the whole name (CPython `PurePath.stem`). -/
def stemChars (n : List Char) : List Char :=
  match rfindDot n with
  | some i => if 0 < i ∧ i + 1 < n.length then n.take i else n
  | none => n

/-- `PurePosixPath(s).suffix`. -/
def pathSuffix (s : String) : String := ⟨suffixChars (pathNameChars s.data)⟩

/-- `PurePosixPath(s).stem`. -/
def pathStem (s : String) : String := ⟨stemChars (pathNameChars s.data)⟩

/-- `dir / name` (POSIX join of a directory and a relative file name). -/
def pathJoin (d n : String) : String := d ++ "/" ++ n

/-- `app.py`: `_safe_ext(filename) = Path(filename).suffix.lower()`. -/
def safe_ext (filename : String) : String := strLower (pathSuffix filename)

/-! ## Filesystem model for `_cleanup_paths`

`FSState.files` is the set of paths currently present.  The two oracle fields
make the primitive `exists`/`unlink` calls fallible, modelling OS errors; a
failed `unlink` leaves the file in place. -/

structure FSState where
  files : List String
  existsFails : String → Bool
  unlinkFails : String → Bool

/-- `p.exists()`: may raise (oracle), else reports membership. -/
def fs_exists (fs : FSState) (p : String) : Except String Bool :=
  if fs.existsFails p then .error "os error" else .ok (decide (p ∈ fs.files))

/-- `p.unlink()`: may raise (oracle), else removes the path. -/
def fs_unlink (fs : FSState) (p : String) : Except String FSState :=
  if fs.unlinkFails p then .error "os error"
  else .ok { fs with files := fs.files.filter (· ≠ p) }

/-- The body of the `try:` block in `_cleanup_paths`:
`if p.exists(): p.unlink()`. -/
def cleanupTryBody (fs : FSState) (p : String) : Except String FSState :=
  match fs_exists fs p with
  | .error e => .error e
  | .ok b => if b then fs_unlink fs p else .ok fs

/-- One loop iteration of `_cleanup_paths`: the `try`/`except Exception: pass`
around the body (best-effort, errors swallowed). -/
def cleanupStep (fs : FSState) (p : String) : FSState :=
  match cleanupTryBody fs p with
  | .ok fs' => fs'
  | .error _ => fs

/-- `app.py`: `_cleanup_paths(*paths)` — iterate over the paths, each step
individually guarded by `try`/`except`. -/
def cleanup_paths (fs : FSState) (ps : List String) : FSState :=
  ps.foldl cleanupStep fs

/-- `_cleanup_paths` with exception propagation made visible: the loop runs in
the error monad, and only the per-path `try`/`except` catches. An uncaught
exception would surface as `.error`. -/
def cleanup_paths_run (fs : FSState) (ps : List String) : Except String FSState :=
  ps.foldlM (fun s p =>
    match cleanupTryBody s p with
    | .ok s' => Except.ok s'
    | .error _ => Except.ok s) fs

/-! ## Simplified (error-free) deletion used to trace handler-level cleanup -/

/-- Remove one path from an error-free filesystem listing. -/
def fsRemove (fs : List String) (p : String) : List String := fs.filter (· ≠ p)

/-- Effect of `_cleanup_paths(*ps)` on an error-free filesystem listing. -/
def cleanupList (fs : List String) (ps : List String) : List String :=
  ps.foldl fsRemove fs

/-! ## libreoffice.py -/

/-- Python exceptions raised by `libreoffice.py`. -/
inductive PyErr where
  | fileNotFound (msg : String)
  | calledProcessError (msg : String)
  deriving DecidableEq, Repr

/-- `str(exc)` for the exceptions of `PyErr`. -/
def PyErr.msg : PyErr → String
  | .fileNotFound m => m
  | .calledProcessError m => m

/-- Oracles for `libreoffice.py`: environment variables, on-disk existence,
`shutil.which`, the subprocess outcome (`some msg` = non-zero exit raising
`CalledProcessError` with message `msg`), and on-disk existence after the
subprocess has run. -/
structure LOEnv where
  getenv : String → Option String
  pathExists : String → Bool
  which : String → Option String
  subprocessErr : Option String
  existsAfterRun : String → Bool

def macDefault : String := "/Applications/LibreOffice.app/Contents/MacOS/soffice"

def macAlt : String := "/Applications/LibreOffice.app/Contents/MacOS/soffice-bin"

def loNotFoundMsg : String :=
  "LibreOffice executable not found. Install LibreOffice or set LIBREOFFICE_BIN to the full path."

/-- The env-var override consulted first by `resolve_libreoffice_path`:
`os.getenv("LIBREOFFICE_BIN") or os.getenv("LIBREOFFICE_PATH")`, subject to
the `if env_override:` truthiness test. -/
def envOverrideOf (E : LOEnv) : Option String :=
  pyTruthy (orOpt (E.getenv "LIBREOFFICE_BIN") (E.getenv "LIBREOFFICE_PATH"))

/-- Candidates tried after the env override: the `for name in ("libreoffice",
"soffice")` loop over `shutil.which`, then the two macOS install paths, else
`FileNotFoundError`. -/
def resolveFromSearch (E : LOEnv) : Except PyErr String :=
  match pyTruthy (E.which "libreoffice") with
  | some found => .ok found
  | none =>
    match pyTruthy (E.which "soffice") with
    | some found => .ok found
    | none =>
      if E.pathExists macDefault then .ok macDefault
      else if E.pathExists macAlt then .ok macAlt
      else .error (.fileNotFound loNotFoundMsg)

/-- `libreoffice.py`: `resolve_libreoffice_path()`. -/
def resolve_libreoffice_path (E : LOEnv) : Except PyErr String :=
  match envOverrideOf E with
  | some candidate => if E.pathExists candidate then .ok candidate else resolveFromSearch E
  | none => resolveFromSearch E

/-- `libreoffice.py`: `convert_pptx_to_pdf(input_path, output_dir)`.
The `output_dir.mkdir` call touches only directories, never artifact files,
and is not modelled.  On success the subprocess writes the expected PDF. -/
def convert_pptx_to_pdf (E : LOEnv) (input_path output_dir : String) : Except PyErr String :=
  match resolve_libreoffice_path E with
  | .error e => .error e
  | .ok _ =>
    match E.subprocessErr with
    | some m => .error (.calledProcessError m)
    | none =>
      let pdf_path := pathJoin output_dir (pathStem input_path ++ ".pdf")
      if E.existsAfterRun pdf_path then .ok pdf_path
      else .error (.fileNotFound ("Expected PDF not found: " ++ pdf_path))

deriving instance DecidableEq for Except

/-! ## app.py: HTTP-level data -/

/-- A FastAPI `HTTPException` (status code plus detail string). -/
structure HExc where
  status : Nat
  detail : String
  deriving DecidableEq, Repr

/-- A response from the downstream parsing service (`httpx.Response`):
status code and raw body text. -/
structure DownResp where
  status : Nat
  body : String
  deriving DecidableEq, Repr

/-- A network-level exception message from `httpx`. -/
abbrev NetErr : Type := String

/-- One multipart POST made to the downstream service: the URL, the name of
the file field, the filename sent for the PDF, the scalar form fields, and the
forwarded query parameters. -/
structure PostCall where
  url : String
  field : String
  filename : String
  form : List (String × String)
  params : List (String × String)
  deriving DecidableEq, Repr

/-- `app.py`: the hardcoded fallback parser address. -/
def defaultParserUrl : String := "http://10.81.194.110:31007/file_parse"

/-- `app.py`: `_effective_parser_url()` —
`(os.getenv("PARSER_URL") or os.getenv("PARSE_URL")) or default`. -/
def effective_parser_url (getenv : String → Option String) : String :=
  pyOrStr (orOpt (getenv "PARSER_URL") (getenv "PARSE_URL")) defaultParserUrl

/-- The resolution expression of `_resolve_parser_url` (line 208):
`query_override or header_override or _effective_parser_url()`. -/
def resolveUrlValue (q h : Option String) (getenv : String → Option String) : String :=
  pyOrStr (orOpt q h) (effective_parser_url getenv)

def parserUrlSchemeMsg : String := "parser_url must start with http:// or https://"

/-- `app.py`: `_resolve_parser_url(query_override, header_override)` —
resolve with precedence, then require an `http://`/`https://` scheme. -/
def resolve_parser_url (q h : Option String) (getenv : String → Option String) :
    Except HExc String :=
  let url := resolveUrlValue q h getenv
  if pyStartsWith url "http://" || pyStartsWith url "https://" then .ok url
  else .error ⟨400, parserUrlSchemeMsg⟩

/-- Python `dict` assignment `d[k] = v` on an insertion-ordered association
list: replace the value in place if the key exists, else append. -/
def insertKV : List (String × String) → String → String → List (String × String)
  | [], k, v => [(k, v)]
  | (k0, v0) :: rest, k, v =>
    if k0 = k then (k0, v) :: rest else (k0, v0) :: insertKV rest k v

def pqpEmptyMsg : String := "parser_query_ prefix requires a field name"

/-- Loop of `_parser_query_params` over `request.query_params.multi_items()`,
accumulating the stripped parameters in a dict. -/
def parser_query_params_go (acc : List (String × String)) :
    List (String × String) → Except HExc (List (String × String))
  | [] => .ok acc
  | (k, v) :: rest =>
    if pyStartsWith k "parser_query_" then
      let trimmed := k.drop "parser_query_".length
      if trimmed = "" then .error ⟨400, pqpEmptyMsg⟩
      else parser_query_params_go (insertKV acc trimmed v) rest
    else parser_query_params_go acc rest

/-- `app.py`: `_parser_query_params(request)`. -/
def parser_query_params (items : List (String × String)) :
    Except HExc (List (String × String)) :=
  parser_query_params_go [] items

/-- The optional tuning parameters of `/convert_and_parse`, with the default
values from the endpoint signature. -/
structure TuningParams where
  return_middle_json : Bool := false
  return_model_output : Bool := false
  return_md : Bool := true
  return_images : Bool := false
  end_page_id : Int := 99999
  parse_method : String := "auto"
  start_page_id : Int := 0
  lang_list : String := "ch"
  output_dir : String := "./output"
  server_url : String := "string"
  return_content_list : Bool := false
  backend : String := "pipeline"
  table_enable : Bool := true
  formula_enable : Bool := true

/-- Python `str(b).lower()` for a `bool`. -/
def pyBoolStr (b : Bool) : String := if b then "true" else "false"

/-- The `form_data` dictionary built in `convert_and_parse`, in source order. -/
def form_data (t : TuningParams) : List (String × String) :=
  [("return_middle_json", pyBoolStr t.return_middle_json),
   ("return_model_output", pyBoolStr t.return_model_output),
   ("return_md", pyBoolStr t.return_md),
   ("return_images", pyBoolStr t.return_images),
   ("end_page_id", toString t.end_page_id),
   ("parse_method", t.parse_method),
   ("start_page_id", toString t.start_page_id),
   ("lang_list", t.lang_list),
   ("output_dir", t.output_dir),
   ("server_url", t.server_url),
   ("return_content_list", pyBoolStr t.return_content_list),
   ("backend", t.backend),
   ("table_enable", pyBoolStr t.table_enable),
   ("formula_enable", pyBoolStr t.formula_enable)]

/-- `app.py`: `_build_multipart_file(field_name, filename, content,
content_type)`; the boundary's random hex part is supplied by the caller.
Returns `(body, content_type_header_value)`. -/
def build_multipart_file (boundaryHex field_name filename content content_type : String) :
    String × String :=
  let boundary := "----pptx2pdf-" ++ boundaryHex
  let crlf := "\r\n"
  let headers :=
    "--" ++ boundary ++ crlf ++
    "Content-Disposition: form-data; name=\"" ++ field_name ++ "\"; filename=\"" ++
      filename ++ "\"" ++ crlf ++
    "Content-Type: " ++ content_type ++ crlf ++ crlf
  let footer := crlf ++ "--" ++ boundary ++ "--" ++ crlf
  (headers ++ content ++ footer, "multipart/form-data; boundary=" ++ boundary)

/-! ## The downstream proxy and response relay of `convert_and_parse` -/

/-- The network section of `convert_and_parse` (lines 304-330): post with the
file field named `files`; if the status is `>= 400`, post once more with the
field named `file` and the same form fields and query parameters, preferring
the second response exactly when it is 2xx.  `net i` is the downstream's
answer to the `i`-th post (`.error` = the post raised a network exception).
Returns the posts attempted together with the final response or exception. -/
def proxyPost (net : Nat → Except NetErr DownResp) (url download_name : String)
    (form params : List (String × String)) :
    List PostCall × Except NetErr DownResp :=
  let call1 : PostCall := ⟨url, "files", download_name, form, params⟩
  match net 0 with
  | .error e => ([call1], .error e)
  | .ok resp =>
    if 400 ≤ resp.status then
      let call2 : PostCall := ⟨url, "file", download_name, form, params⟩
      match net 1 with
      | .error e => ([call1, call2], .error e)
      | .ok resp2 =>
        ([call1, call2], .ok (if 200 ≤ resp2.status ∧ resp2.status < 300 then resp2 else resp))
    else ([call1], .ok resp)

/-- The response relay of `convert_and_parse` (lines 332-343): decode the body
as JSON (`jdecode` is the JSON decoder; `none` = `ValueError`) and re-emit the
payload with the downstream status, else raise the 502 `HTTPException` whose
detail carries the downstream status and the first 1000 characters of the body. -/
def relayJson {α : Type} (jdecode : String → Option α) (resp : DownResp) :
    Except HExc (Nat × α) :=
  match jdecode resp.body with
  | some payload => .ok (resp.status, payload)
  | none =>
    .error ⟨502, "Downstream returned non-JSON (status " ++ toString resp.status ++
      "). Snippet: " ++ pyTake resp.body 1000⟩

/-! ## The request handlers -/

/-- `UPLOAD_DIR` relative to `BASE_DIR`. -/
def UPLOAD_DIR : String := "data/uploads"

/-- `OUTPUT_DIR` relative to `BASE_DIR`. -/
def OUTPUT_DIR : String := "data/outputs"

def noFileMsg : String := "No file uploaded"

def badExtMsg : String := "Only .ppt or .pptx files are supported"

/-- Outcome of streaming the upload to disk (`input_path.open("wb")` +
`shutil.copyfileobj`): success, failure before the file was created, or
failure after creation (a partial file remains on disk).  The message is the
`str` of the raised exception. -/
inductive SaveOutcome where
  | ok
  | failNothingWritten (msg : String)
  | failAfterCreate (msg : String)
  deriving DecidableEq, Repr

/-- Environment of the upload-and-convert portion shared by all three
endpoints: the uploaded filename (`none`/empty = missing), the
`uuid.uuid4().hex` value drawn for this request, the save outcome, and the
oracles of `libreoffice.py`. -/
structure UpEnv where
  filename : Option String
  uniqueStem : String
  save : SaveOutcome
  lo : LOEnv

/-- Environment of `/convert_multipart`: additionally the hex drawn for the
multipart boundary and the bytes of the generated PDF. -/
structure MPEnv extends UpEnv where
  boundaryHex : String
  pdfContent : String

/-- Environment of `/convert_and_parse`: additionally the destination
overrides, `os.getenv`, the raw query items, the tuning parameters, the
downstream network oracle and the JSON decoder. -/
structure CPEnv (α : Type) extends UpEnv where
  queryOverride : Option String
  headerOverride : Option String
  getenv : String → Option String
  rawQuery : List (String × String)
  tuning : TuningParams
  net : Nat → Except NetErr DownResp
  jdecode : String → Option α

/-- The `FileResponse` returned by `/convert`. -/
structure FileResp where
  path : String
  media_type : String
  filename : String
  deriving DecidableEq, Repr

/-- The `Response` returned by `/convert_multipart`. -/
structure MPResp where
  content : String
  media_type : String
  deriving DecidableEq, Repr

/-- Result of one request: the HTTP outcome, the artifact files persisted to
durable storage during the request (in order), and the files among them still
on disk once the request — including any background cleanup scheduled after
the response — has completed. -/
structure ReqOut (ρ : Type) where
  result : Except HExc ρ
  persisted : List String
  fsFinal : List String
  deriving DecidableEq, Repr

/-- Result of a `/convert_and_parse` request: additionally the posts made to
the downstream service. -/
structure CPOut (α : Type) where
  result : Except HExc (Nat × α)
  persisted : List String
  fsFinal : List String
  posts : List PostCall

/-- `app.py`: the `/convert` endpoint. -/
def convertHandler (E : UpEnv) : ReqOut FileResp :=
  match E.filename with
  | none => ⟨.error ⟨400, noFileMsg⟩, [], []⟩
  | some f =>
    if f = "" then ⟨.error ⟨400, noFileMsg⟩, [], []⟩
    else if safe_ext f ∈ [".ppt", ".pptx"] then
      let input_path := pathJoin UPLOAD_DIR (E.uniqueStem ++ safe_ext f)
      match E.save with
      | .failNothingWritten m => ⟨.error ⟨500, "Failed to save upload: " ++ m⟩, [], []⟩
      | .failAfterCreate m =>
        ⟨.error ⟨500, "Failed to save upload: " ++ m⟩, [input_path], [input_path]⟩
      | .ok =>
        match convert_pptx_to_pdf E.lo input_path OUTPUT_DIR with
        | .error (.fileNotFound m) =>
          ⟨.error ⟨500, m⟩, [input_path], cleanupList [input_path] [input_path]⟩
        | .error (.calledProcessError m) =>
          ⟨.error ⟨500, "Conversion failed: " ++ m⟩, [input_path],
           cleanupList [input_path] [input_path]⟩
        | .ok pdf_path =>
          let download_name := pathStem f ++ ".pdf"
          ⟨.ok ⟨pdf_path, "application/pdf", download_name⟩,
           [input_path, pdf_path],
           cleanupList [input_path, pdf_path] [input_path, pdf_path]⟩
    else ⟨.error ⟨400, badExtMsg⟩, [], []⟩

/-- `app.py`: the `/convert_multipart` endpoint. -/
def convertMultipartHandler (E : MPEnv) : ReqOut MPResp :=
  match E.filename with
  | none => ⟨.error ⟨400, noFileMsg⟩, [], []⟩
  | some f =>
    if f = "" then ⟨.error ⟨400, noFileMsg⟩, [], []⟩
    else if safe_ext f ∈ [".ppt", ".pptx"] then
      let input_path := pathJoin UPLOAD_DIR (E.uniqueStem ++ safe_ext f)
      match E.save with
      | .failNothingWritten m => ⟨.error ⟨500, "Failed to save upload: " ++ m⟩, [], []⟩
      | .failAfterCreate m =>
        ⟨.error ⟨500, "Failed to save upload: " ++ m⟩, [input_path], [input_path]⟩
      | .ok =>
        match convert_pptx_to_pdf E.lo input_path OUTPUT_DIR with
        | .error e =>
          ⟨.error ⟨500, "Conversion failed: " ++ e.msg⟩, [input_path],
           cleanupList [input_path] [input_path]⟩
        | .ok pdf_path =>
          let download_name := pathStem f ++ ".pdf"
          let bm := build_multipart_file E.boundaryHex "file" download_name
            E.pdfContent "application/pdf"
          ⟨.ok ⟨bm.1, bm.2⟩,
           [input_path, pdf_path],
           cleanupList [input_path, pdf_path] [input_path, pdf_path]⟩
    else ⟨.error ⟨400, badExtMsg⟩, [], []⟩

/-- `app.py`: the `/convert_and_parse` endpoint.  Note that, as in the source,
`_resolve_parser_url` (line 273) and `_parser_query_params` (line 293) run
outside the `try`/`except` that performs cleanup, so their `HTTPException`s
propagate with the stored upload and converted PDF left on disk. -/
def convertAndParseHandler {α : Type} (E : CPEnv α) : CPOut α :=
  match E.filename with
  | none => ⟨.error ⟨400, noFileMsg⟩, [], [], []⟩
  | some f =>
    if f = "" then ⟨.error ⟨400, noFileMsg⟩, [], [], []⟩
    else if safe_ext f ∈ [".ppt", ".pptx"] then
      let input_path := pathJoin UPLOAD_DIR (E.uniqueStem ++ safe_ext f)
      match E.save with
      | .failNothingWritten m => ⟨.error ⟨500, "Failed to save upload: " ++ m⟩, [], [], []⟩
      | .failAfterCreate m =>
        ⟨.error ⟨500, "Failed to save upload: " ++ m⟩, [input_path], [input_path], []⟩
      | .ok =>
        match convert_pptx_to_pdf E.lo input_path OUTPUT_DIR with
        | .error e =>
          ⟨.error ⟨500, "Conversion failed: " ++ e.msg⟩, [input_path],
           cleanupList [input_path] [input_path], []⟩
        | .ok pdf_path =>
          let download_name := pathStem f ++ ".pdf"
          match resolve_parser_url E.queryOverride E.headerOverride E.getenv with
          | .error ex => ⟨.error ex, [input_path, pdf_path], [input_path, pdf_path], []⟩
          | .ok target_url =>
            match parser_query_params E.rawQuery with
            | .error ex => ⟨.error ex, [input_path, pdf_path], [input_path, pdf_path], []⟩
            | .ok pqp =>
              let fd := form_data E.tuning
              let pr := proxyPost E.net target_url download_name fd pqp
              match pr.2 with
              | .error e =>
                ⟨.error ⟨502, "Failed to call parser: " ++ e⟩, [input_path, pdf_path],
                 cleanupList [input_path, pdf_path] [input_path, pdf_path], pr.1⟩
              | .ok resp =>
                match relayJson E.jdecode resp with
                | .error ex =>
                  ⟨.error ex, [input_path, pdf_path],
                   cleanupList [input_path, pdf_path] [input_path, pdf_path], pr.1⟩
                | .ok out =>
                  ⟨.ok out, [input_path, pdf_path],
                   cleanupList [input_path, pdf_path] [input_path, pdf_path], pr.1⟩
    else ⟨.error ⟨400, badExtMsg⟩, [], [], []⟩

/-! ## Concrete oracle environments used by witnesses -/

/-- A `LOEnv` in which `shutil.which` finds `libreoffice` and the subprocess
succeeds, writing the expected PDF. -/
def loOk : LOEnv :=
  ⟨fun _ => none, fun _ => false,
   fun n => if n = "libreoffice" then some "/usr/bin/libreoffice" else none,
   none, fun _ => true⟩

/-! ## Helper lemmas -/

theorem cleanupTryBody_caught (fs : FSState) (p : String) :
    (match cleanupTryBody fs p with
      | .ok s' => Except.ok s'
      | .error _ => Except.ok fs) = (Except.ok (cleanupStep fs p) : Except String FSState) := by
  unfold cleanupStep
  cases cleanupTryBody fs p <;> rfl

theorem cleanup_paths_run_eq (fs : FSState) (ps : List String) :
    cleanup_paths_run fs ps = .ok (cleanup_paths fs ps) := by
  induction ps generalizing fs with
  | nil => rfl
  | cons p ps ih =>
    show (List.foldlM _ fs (p :: ps)) = _
    rw [List.foldlM_cons, cleanupTryBody_caught]
    simpa [cleanup_paths, cleanup_paths_run] using ih (cleanupStep fs p)

/-! ## C9 -/

/-- C9: the deferred cleanup step never raises: for every filesystem state
(including absent paths and paths whose `exists`/`unlink` calls error) and
every path list, running `_cleanup_paths` — with exception propagation made
visible in the `Except` monad — returns `.ok`, and running it again on the
resulting state returns `.ok` as well. -/
theorem c9_cleanup_never_raises (fs : FSState) (ps : List String) :
    ∃ fs', cleanup_paths_run fs ps = .ok fs' ∧
      ∃ fs'', cleanup_paths_run fs' ps = .ok fs'' :=
  ⟨cleanup_paths fs ps, cleanup_paths_run_eq fs ps,
   cleanup_paths (cleanup_paths fs ps) ps, cleanup_paths_run_eq _ ps⟩

/-! ## C2 -/

/-- C2: in the downstream proxy step, a first response with status `< 400`
is final with no retry; a first response with status `>= 400` triggers exactly
one retry whose post differs from the first only in the file field name
(`files` renamed to `file`, same URL, filename, form fields and query
parameters), and the retry's response is final exactly when its status is 2xx,
else the first response is kept. -/
theorem c2_retry_policy (net : Nat → Except NetErr DownResp)
    (url download_name : String) (form params : List (String × String)) :
    (∀ r1, net 0 = .ok r1 → r1.status < 400 →
      proxyPost net url download_name form params =
        ([⟨url, "files", download_name, form, params⟩], .ok r1)) ∧
    (∀ r1 r2, net 0 = .ok r1 → 400 ≤ r1.status → net 1 = .ok r2 →
      proxyPost net url download_name form params =
        ([⟨url, "files", download_name, form, params⟩,
          ⟨url, "file", download_name, form, params⟩],
         .ok (if 200 ≤ r2.status ∧ r2.status < 300 then r2 else r1))) := by
  constructor
  · intro r1 h0 hlt
    simp [proxyPost, h0, Nat.not_le.mpr hlt]
  · intro r1 r2 h0 hge h1
    simp [proxyPost, h0, h1, hge]

/-- Concrete network oracle: the destination rejects the `files` field with a
400 and accepts the `file` field with a 200. -/
def netFallback : Nat → Except NetErr DownResp :=
  fun i => if i = 0 then .ok ⟨400, "field rejected"⟩ else .ok ⟨200, "ok-body"⟩

theorem c2_retry_policy_witness :
    proxyPost netFallback "http://parser/file_parse" "deck.pdf" [] [] =
      ([⟨"http://parser/file_parse", "files", "deck.pdf", [], []⟩,
        ⟨"http://parser/file_parse", "file", "deck.pdf", [], []⟩],
       .ok (if 200 ≤ (200 : Nat) ∧ (200 : Nat) < 300 then (⟨200, "ok-body"⟩ : DownResp)
            else ⟨400, "field rejected"⟩)) :=
  (c2_retry_policy netFallback "http://parser/file_parse" "deck.pdf" [] []).2
    ⟨400, "field rejected"⟩ ⟨200, "ok-body"⟩ rfl (by decide) rfl

/-! ## C3 -/

/-- C3: when the downstream body does not decode as JSON, the relay fails with
a 502 whose detail carries the destination's original status code and the
first at-most-1000 characters of the raw body; when it does decode, the
payload is re-emitted with the destination's original status code. -/
theorem c3_response_relay {α : Type} (jdecode : String → Option α) (resp : DownResp) :
    (jdecode resp.body = none →
      relayJson jdecode resp =
        .error ⟨502, "Downstream returned non-JSON (status " ++ toString resp.status ++
          "). Snippet: " ++ pyTake resp.body 1000⟩ ∧
      (pyTake resp.body 1000).length ≤ 1000 ∧
      (pyTake resp.body 1000).data = resp.body.data.take 1000) ∧
    (∀ p, jdecode resp.body = some p → relayJson jdecode resp = .ok (resp.status, p)) := by
  constructor
  · intro h
    refine ⟨by simp [relayJson, h], ?_, rfl⟩
    show (resp.body.data.take 1000).length ≤ 1000
    rw [List.length_take]
    exact min_le_left _ _
  · intro p h
    simp [relayJson, h]

theorem c3_response_relay_witness :
    relayJson (fun _ => (none : Option Nat)) ⟨500, "Internal Error"⟩ =
      .error ⟨502, "Downstream returned non-JSON (status " ++ toString (500 : Nat) ++
        "). Snippet: " ++ pyTake "Internal Error" 1000⟩ ∧
    (pyTake "Internal Error" 1000).length ≤ 1000 :=
  ⟨((c3_response_relay (fun _ => (none : Option Nat)) ⟨500, "Internal Error"⟩).1 rfl).1,
   ((c3_response_relay (fun _ => (none : Option Nat)) ⟨500, "Internal Error"⟩).1 rfl).2.1⟩

theorem convert_ok_path (E : LOEnv) (input_path output_dir p : String)
    (hp : convert_pptx_to_pdf E input_path output_dir = .ok p) :
    p = pathJoin output_dir (pathStem input_path ++ ".pdf") := by
  unfold convert_pptx_to_pdf at hp
  split at hp
  · exact absurd hp (by simp)
  · split at hp
    · exact absurd hp (by simp)
    · cases hE : E.existsAfterRun (pathJoin output_dir (pathStem input_path ++ ".pdf")) with
      | false => simp [hE] at hp
      | true =>
        simp [hE] at hp
        exact hp.symm

/-! ## C7 -/

/-- C7: every successful conversion returns exactly
`output_dir/<input stem>.pdf`, and when that path does not exist after the
subprocess returns, `convert_pptx_to_pdf` fails with the
`FileNotFoundError` naming that path. -/
theorem c7_output_path (E : LOEnv) (input_path output_dir : String) :
    (∀ p, convert_pptx_to_pdf E input_path output_dir = .ok p →
      p = pathJoin output_dir (pathStem input_path ++ ".pdf")) ∧
    (∀ lo, resolve_libreoffice_path E = .ok lo → E.subprocessErr = none →
      E.existsAfterRun (pathJoin output_dir (pathStem input_path ++ ".pdf")) = false →
      convert_pptx_to_pdf E input_path output_dir =
        .error (.fileNotFound ("Expected PDF not found: " ++
          pathJoin output_dir (pathStem input_path ++ ".pdf")))) := by
  constructor
  · exact fun p hp => convert_ok_path E input_path output_dir p hp
  · intro lo hres hsub hafter
    simp [convert_pptx_to_pdf, hres, hsub, hafter]

theorem c7_output_path_witness :
    "data/outputs/deck.pdf" = pathJoin "data/outputs" (pathStem "deck.pptx" ++ ".pdf") :=
  (c7_output_path loOk "deck.pptx" "data/outputs").1 "data/outputs/deck.pdf" (by decide)

/-! ## C8 -/

theorem resolve_skips_env (E : LOEnv)
    (henv : ∀ c, envOverrideOf E = some c → E.pathExists c = false) :
    resolve_libreoffice_path E = resolveFromSearch E := by
  unfold resolve_libreoffice_path
  cases h : envOverrideOf E with
  | none => rfl
  | some c => simp [henv c h]

/-- C8: the executable locator tries, in order: the (truthy) env-var override,
accepted only if it exists on disk; `shutil.which` for `libreoffice` then
`soffice`; the two fixed macOS install paths; and fails with
`FileNotFoundError` when no candidate exists.  The lookup is a pure function
of its oracles (no side effects in the embedding). -/
theorem c8_locator_order (E : LOEnv) :
    (∀ c, envOverrideOf E = some c → E.pathExists c = true →
      resolve_libreoffice_path E = .ok c) ∧
    ((∀ c, envOverrideOf E = some c → E.pathExists c = false) →
      (∀ q, pyTruthy (E.which "libreoffice") = some q →
        resolve_libreoffice_path E = .ok q) ∧
      (pyTruthy (E.which "libreoffice") = none →
        ∀ q, pyTruthy (E.which "soffice") = some q →
          resolve_libreoffice_path E = .ok q) ∧
      (pyTruthy (E.which "libreoffice") = none → pyTruthy (E.which "soffice") = none →
        E.pathExists macDefault = true → resolve_libreoffice_path E = .ok macDefault) ∧
      (pyTruthy (E.which "libreoffice") = none → pyTruthy (E.which "soffice") = none →
        E.pathExists macDefault = false → E.pathExists macAlt = true →
        resolve_libreoffice_path E = .ok macAlt) ∧
      (pyTruthy (E.which "libreoffice") = none → pyTruthy (E.which "soffice") = none →
        E.pathExists macDefault = false → E.pathExists macAlt = false →
        resolve_libreoffice_path E = .error (.fileNotFound loNotFoundMsg))) := by
  constructor
  · intro c hc hex
    simp [resolve_libreoffice_path, hc, hex]
  · intro henv
    rw [resolve_skips_env E henv]
    refine ⟨?_, ?_, ?_, ?_, ?_⟩
    · intro q hq
      simp [resolveFromSearch, hq]
    · intro h1 q hq
      simp [resolveFromSearch, h1, hq]
    · intro h1 h2 hd
      simp [resolveFromSearch, h1, h2, hd]
    · intro h1 h2 hd ha
      simp [resolveFromSearch, h1, h2, hd, ha]
    · intro h1 h2 hd ha
      simp [resolveFromSearch, h1, h2, hd, ha]

/-- Concrete `LOEnv` where `LIBREOFFICE_BIN` points at an existing path. -/
def loEnvOverride : LOEnv :=
  ⟨fun n => if n = "LIBREOFFICE_BIN" then some "/opt/soffice" else none,
   fun p => p = "/opt/soffice", fun _ => none, none, fun _ => true⟩

theorem c8_locator_order_witness :
    resolve_libreoffice_path loEnvOverride = .ok "/opt/soffice" :=
  (c8_locator_order loEnvOverride).1 "/opt/soffice" (by decide) (by decide)

/-! ## C4 -/

/-- The claim of C4, as stated, specialised to its first clause: providing the
query-parameter override makes all later sources irrelevant, i.e. the
resolution expression yields the provided value. -/
def C4Claim : Prop :=
  ∀ (q h : Option String) (getenv : String → Option String) (u : String),
    q = some u → resolveUrlValue q h getenv = u

/-- C4 counterexample: providing the query override as the empty string does
not win — Python `or` treats `""` as absent, so the header value is used
instead (under the claim the resolved value would have been `""`). -/
theorem c4_counterexample : ¬ C4Claim := by
  intro hc
  have h1 := hc (some "") (some "http://h.example/x") (fun _ => none) "" rfl
  have h2 : resolveUrlValue (some "") (some "http://h.example/x") (fun _ => none) =
      "http://h.example/x" := by decide
  rw [h2] at h1
  exact absurd h1 (by decide)

/-- C4 (amended): destination resolution precedence holds among sources that
are provided with a non-empty value — query parameter, then header, then the
environment default (`PARSER_URL` or `PARSE_URL`, first truthy), then the
hardcoded fallback; a source provided as the empty string is treated as
absent. -/
theorem c4_precedence_amended (q h : Option String) (getenv : String → Option String) :
    (∀ u, q = some u → u ≠ "" → resolveUrlValue q h getenv = u) ∧
    (pyTruthy q = none → ∀ v, h = some v → v ≠ "" → resolveUrlValue q h getenv = v) ∧
    (pyTruthy q = none → pyTruthy h = none →
      resolveUrlValue q h getenv = effective_parser_url getenv) ∧
    (pyTruthy q = none → pyTruthy h = none →
      ∀ e, pyTruthy (orOpt (getenv "PARSER_URL") (getenv "PARSE_URL")) = some e →
        resolveUrlValue q h getenv = e) ∧
    (pyTruthy q = none → pyTruthy h = none →
      pyTruthy (orOpt (getenv "PARSER_URL") (getenv "PARSE_URL")) = none →
      resolveUrlValue q h getenv = defaultParserUrl) := by
  have hq_of : pyTruthy q = none → orOpt q h = h := by
    intro hq
    cases q with
    | none => rfl
    | some s =>
      by_cases hs : s = ""
      · simp [orOpt, hs]
      · simp [pyTruthy, hs] at hq
  have hh_of : pyTruthy h = none → pyOrStr h (effective_parser_url getenv) =
      effective_parser_url getenv := by
    intro hh
    cases h with
    | none => rfl
    | some s =>
      by_cases hs : s = ""
      · simp [pyOrStr, hs]
      · simp [pyTruthy, hs] at hh
  have heff : ∀ e, pyTruthy (orOpt (getenv "PARSER_URL") (getenv "PARSE_URL")) = some e →
      effective_parser_url getenv = e := by
    intro e he
    unfold effective_parser_url
    cases ho : orOpt (getenv "PARSER_URL") (getenv "PARSE_URL") with
    | none => simp [ho, pyTruthy] at he
    | some s =>
      rw [ho] at he
      by_cases hs : s = ""
      · simp [pyTruthy, hs] at he
      · simp only [pyTruthy, if_neg hs, Option.some.injEq] at he
        subst he
        simp [ho, pyOrStr, hs]
  have heff0 : pyTruthy (orOpt (getenv "PARSER_URL") (getenv "PARSE_URL")) = none →
      effective_parser_url getenv = defaultParserUrl := by
    intro he
    unfold effective_parser_url
    cases ho : orOpt (getenv "PARSER_URL") (getenv "PARSE_URL") with
    | none => rfl
    | some s =>
      rw [ho] at he
      by_cases hs : s = ""
      · simp [pyOrStr, hs]
      · simp [pyTruthy, hs] at he
  refine ⟨?_, ?_, ?_, ?_, ?_⟩
  · intro u hu hne
    simp [resolveUrlValue, hu, orOpt, hne, pyOrStr]
  · intro hq v hv hne
    rw [resolveUrlValue, hq_of hq, hv]
    simp [pyOrStr, hne]
  · intro hq hh
    rw [resolveUrlValue, hq_of hq, hh_of hh]
  · intro hq hh e he
    rw [resolveUrlValue, hq_of hq, hh_of hh, heff e he]
  · intro hq hh he
    rw [resolveUrlValue, hq_of hq, hh_of hh, heff0 he]

theorem c4_precedence_amended_witness :
    resolveUrlValue (some "http://q.example/p") (some "http://h.example/p")
      (fun _ => some "http://e.example/p") = "http://q.example/p" :=
  (c4_precedence_amended (some "http://q.example/p") (some "http://h.example/p")
    (fun _ => some "http://e.example/p")).1 "http://q.example/p" rfl (by decide)

/-! ## C5 -/

/-- C5: when the resolved destination URL does not begin with `http://` or
`https://`, the proxy step of `/convert_and_parse` fails with the 400
`HTTPException` of `_resolve_parser_url` and no post is made to the
destination. -/
theorem c5_scheme_validation {α : Type} (E : CPEnv α) (f pdf : String)
    (hf : E.filename = some f) (hne : f ≠ "")
    (hext : safe_ext f ∈ [".ppt", ".pptx"])
    (hsave : E.save = .ok)
    (hconv : convert_pptx_to_pdf E.lo (pathJoin UPLOAD_DIR (E.uniqueStem ++ safe_ext f))
      OUTPUT_DIR = .ok pdf)
    (hscheme : (pyStartsWith (resolveUrlValue E.queryOverride E.headerOverride E.getenv)
        "http://" ||
      pyStartsWith (resolveUrlValue E.queryOverride E.headerOverride E.getenv)
        "https://") = false) :
    resolve_parser_url E.queryOverride E.headerOverride E.getenv =
      .error ⟨400, parserUrlSchemeMsg⟩ ∧
    (convertAndParseHandler E).result = .error ⟨400, parserUrlSchemeMsg⟩ ∧
    (convertAndParseHandler E).posts = [] := by
  have hr : resolve_parser_url E.queryOverride E.headerOverride E.getenv =
      .error ⟨400, parserUrlSchemeMsg⟩ := by
    simp [resolve_parser_url, hscheme]
  refine ⟨hr, ?_, ?_⟩ <;>
    simp [convertAndParseHandler, hf, hne, hext, hsave, hconv, hr]

/-- Concrete `/convert_and_parse` environment whose query override is
`ftp://host`: conversion succeeds, then URL validation rejects. -/
def cpEnvFtp : CPEnv Nat :=
  { filename := some "deck.pptx", uniqueStem := "aabbccdd", save := .ok, lo := loOk,
    queryOverride := some "ftp://host", headerOverride := none, getenv := fun _ => none,
    rawQuery := [], tuning := {}, net := fun _ => .error "unused",
    jdecode := fun _ => none }

theorem c5_scheme_validation_witness :
    (convertAndParseHandler cpEnvFtp).result = .error ⟨400, parserUrlSchemeMsg⟩ ∧
    (convertAndParseHandler cpEnvFtp).posts = [] :=
  (c5_scheme_validation cpEnvFtp "deck.pptx" "data/outputs/aabbccdd.pdf" rfl (by decide)
    (by decide) rfl (by decide) (by decide)).2

/-! ## C6 -/

/-- C6: an uploaded filename whose lowercased extension is outside
`{.ppt, .pptx}` is rejected by all three endpoints with the 400 validation
error, before any file is persisted (and before any downstream post). -/
theorem c6_extension_rejected {α : Type} (E1 : UpEnv) (E2 : MPEnv) (E3 : CPEnv α)
    (f : String) (hne : f ≠ "") (hext : safe_ext f ∉ [".ppt", ".pptx"])
    (h1 : E1.filename = some f) (h2 : E2.filename = some f) (h3 : E3.filename = some f) :
    convertHandler E1 = ⟨.error ⟨400, badExtMsg⟩, [], []⟩ ∧
    convertMultipartHandler E2 = ⟨.error ⟨400, badExtMsg⟩, [], []⟩ ∧
    convertAndParseHandler E3 = ⟨.error ⟨400, badExtMsg⟩, [], [], []⟩ := by
  refine ⟨?_, ?_, ?_⟩
  · simp [convertHandler, h1, hne, hext]
  · simp [convertMultipartHandler, h2, hne, hext]
  · simp [convertAndParseHandler, h3, hne, hext]

def upEnvTxt : UpEnv := ⟨some "notes.txt", "aabbccdd", .ok, loOk⟩

def mpEnvTxt : MPEnv := { toUpEnv := upEnvTxt, boundaryHex := "00", pdfContent := "" }

def cpEnvTxt : CPEnv Nat :=
  { toUpEnv := upEnvTxt, queryOverride := none, headerOverride := none,
    getenv := fun _ => none, rawQuery := [], tuning := {},
    net := fun _ => .error "unused", jdecode := fun _ => none }

theorem c6_extension_rejected_witness :
    convertHandler upEnvTxt = ⟨.error ⟨400, badExtMsg⟩, [], []⟩ ∧
    convertMultipartHandler mpEnvTxt = ⟨.error ⟨400, badExtMsg⟩, [], []⟩ ∧
    convertAndParseHandler cpEnvTxt = ⟨.error ⟨400, badExtMsg⟩, [], [], []⟩ :=
  c6_extension_rejected upEnvTxt mpEnvTxt cpEnvTxt "notes.txt" (by decide) (by decide)
    rfl rfl rfl

/-! ## C1 -/

/-- C1 (code bug): a request that uploads `deck.pptx`, converts successfully,
and then fails destination-URL validation (`parser_url=ftp://host`) exits with
the 400 error while BOTH artifacts written during the request — the stored
upload and the converted PDF — remain on disk: `_resolve_parser_url` is
called outside the `try`/`except` that performs cleanup, so this validation
failure path triggers no cleanup at all. -/
theorem c1_cleanup_invariant_violated :
    (convertAndParseHandler cpEnvFtp).result = .error ⟨400, parserUrlSchemeMsg⟩ ∧
    (convertAndParseHandler cpEnvFtp).persisted =
      ["data/uploads/aabbccdd.pptx", "data/outputs/aabbccdd.pdf"] ∧
    (convertAndParseHandler cpEnvFtp).fsFinal =
      ["data/uploads/aabbccdd.pptx", "data/outputs/aabbccdd.pdf"] := by
  decide

/-! ## C10: path computation lemmas -/

theorem take_length_append {α : Type} (xs ys : List α) : (xs ++ ys).take xs.length = xs := by
  induction xs with
  | nil => rfl
  | cons a xs ih => simp [ih]

theorem splitOnChar_sep_free {sep : Char} {cs : List Char} (h : sep ∉ cs) :
    splitOnChar sep cs = [cs] := by
  induction cs with
  | nil => rfl
  | cons c cs ih =>
    have hc : ¬c = sep := fun hh => h (hh ▸ List.mem_cons_self c cs)
    have hcs : sep ∉ cs := fun hh => h (List.mem_cons_of_mem _ hh)
    simp [splitOnChar, hc, ih hcs]

theorem splitOnChar_append_sep {sep : Char} {xs : List Char} (h : sep ∉ xs)
    (ys : List Char) :
    splitOnChar sep (xs ++ sep :: ys) = xs :: splitOnChar sep ys := by
  induction xs with
  | nil => simp [splitOnChar]
  | cons c xs ih =>
    have hc : ¬c = sep := fun hh => h (hh ▸ List.mem_cons_self c xs)
    have hxs : sep ∉ xs := fun hh => h (List.mem_cons_of_mem _ hh)
    simp [splitOnChar, hc, ih hxs]

theorem rfindDot_append (xs ys : List Char) :
    rfindDot (xs ++ ys) =
      match rfindDot ys with
      | some i => some (xs.length + i)
      | none => rfindDot xs := by
  induction xs with
  | nil => cases h : rfindDot ys <;> simp [h, rfindDot]
  | cons c xs ih =>
    show rfindDot (c :: (xs ++ ys)) = _
    rw [rfindDot, ih]
    cases h : rfindDot ys with
    | some i => simp [Nat.succ_add, Nat.add_assoc, Nat.add_comm 1 i]
    | none => rw [rfindDot]

theorem pathNameChars_upload (x : List Char) (hx : ('/' : Char) ∉ x)
    (hne : x ≠ []) (hnd : x ≠ ['.']) :
    pathNameChars ("data/uploads/".data ++ x) = x := by
  have h1 : "data/uploads/".data ++ x =
      "data".data ++ '/' :: ("uploads".data ++ '/' :: x) := rfl
  rw [pathNameChars, h1, splitOnChar_append_sep (by decide),
      splitOnChar_append_sep (by decide), splitOnChar_sep_free hx]
  simp [List.filter, hne, hnd]

/-- The unique stem drawn for a request: non-empty and free of `/` and `.`
(as `uuid.uuid4().hex`, a 32-character lowercase hex string, always is). -/
def stemOk (s : String) : Prop :=
  s.data ≠ [] ∧ ∀ c ∈ s.data, c ≠ '/' ∧ c ≠ '.'

instance stemOkDecidable (s : String) : Decidable (stemOk s) := by
  unfold stemOk
  infer_instance

theorem stemChars_append_ext (s : String) (ext : String) (hne : s.data ≠ [])
    (hext : ext = ".ppt" ∨ ext = ".pptx") :
    stemChars (s.data ++ ext.data) = s.data := by
  have hdot : rfindDot (s.data ++ ext.data) = some s.data.length := by
    rw [rfindDot_append]
    rcases hext with h | h <;> subst h <;> simp [show rfindDot ".ppt".data = some 0 from rfl,
      show rfindDot ".pptx".data = some 0 from rfl]
  have hlen : 4 ≤ ext.data.length := by
    rcases hext with h | h <;> subst h <;> decide
  have hpos : 0 < s.data.length := List.length_pos.mpr hne
  have hcond : 0 < s.data.length ∧ s.data.length + 1 < (s.data ++ ext.data).length := by
    refine ⟨hpos, ?_⟩
    rw [List.length_append]
    omega
  rw [stemChars, hdot]
  show (if 0 < s.data.length ∧ s.data.length + 1 < (s.data ++ ext.data).length
      then (s.data ++ ext.data).take s.data.length else s.data ++ ext.data) = s.data
  rw [if_pos hcond, take_length_append]

theorem pathStem_upload_path (stem ext : String) (hs : stemOk stem)
    (hext : ext = ".ppt" ∨ ext = ".pptx") :
    pathStem (pathJoin UPLOAD_DIR (stem ++ ext)) = stem := by
  obtain ⟨hne, hchars⟩ := hs
  have hx : ('/' : Char) ∉ (stem ++ ext).data := by
    intro hmem
    rcases List.mem_append.mp hmem with hm | hm
    · exact (hchars _ hm).1 rfl
    · rcases hext with h | h <;> subst h <;> revert hm <;> decide
  have hpos : 0 < stem.data.length := List.length_pos.mpr hne
  have h4 : 4 ≤ ext.data.length := by
    rcases hext with h | h <;> subst h <;> decide
  have hxe : (stem ++ ext).data ≠ [] := by
    intro hh
    have hL : (stem.data ++ ext.data).length = 0 := by
      rw [show stem.data ++ ext.data = (stem ++ ext).data from rfl, hh]
      rfl
    rw [List.length_append] at hL
    omega
  have hxd : (stem ++ ext).data ≠ ['.'] := by
    intro hh
    have hL : (stem.data ++ ext.data).length = 1 := by
      rw [show stem.data ++ ext.data = (stem ++ ext).data from rfl, hh]
      rfl
    rw [List.length_append] at hL
    omega
  have hdata : (pathJoin UPLOAD_DIR (stem ++ ext)).data =
      "data/uploads/".data ++ (stem ++ ext).data := rfl
  rw [pathStem, hdata, pathNameChars_upload _ hx hxe hxd]
  show (⟨stemChars (stem.data ++ ext.data)⟩ : String) = stem
  rw [stemChars_append_ext stem ext hne hext]

theorem proxyPost_filenames (net : Nat → Except NetErr DownResp)
    (url download_name : String) (form params : List (String × String)) :
    ∀ call ∈ (proxyPost net url download_name form params).1,
      call.filename = download_name := by
  intro call hcall
  cases h0 : net 0 with
  | error e =>
    simp [proxyPost, h0] at hcall
    subst hcall
    rfl
  | ok r1 =>
    by_cases hge : 400 ≤ r1.status
    · cases h1 : net 1 with
      | error e =>
        simp [proxyPost, h0, h1, hge] at hcall
        rcases hcall with h | h <;> subst h <;> rfl
      | ok r2 =>
        simp [proxyPost, h0, h1, hge] at hcall
        rcases hcall with h | h <;> subst h <;> rfl
    · simp [proxyPost, h0, hge] at hcall
      subst hcall
      rfl

/-- If the lowered extension was accepted, the PDF path computed from the
stored upload path is `OUTPUT_DIR/<unique stem>.pdf`. -/
theorem converted_pdf_path (E : LOEnv) (stem ext p : String) (hs : stemOk stem)
    (hext : ext ∈ [".ppt", ".pptx"])
    (hp : convert_pptx_to_pdf E (pathJoin UPLOAD_DIR (stem ++ ext)) OUTPUT_DIR = .ok p) :
    p = pathJoin OUTPUT_DIR (stem ++ ".pdf") := by
  have hext' : ext = ".ppt" ∨ ext = ".pptx" := by simpa using hext
  rw [convert_ok_path E _ _ p hp, pathStem_upload_path stem ext hs hext']

/-- C10 (amended): on every successful request, the filename presented — the
download filename of `/convert`, the multipart filename of
`/convert_multipart`, the filename posted downstream by `/convert_and_parse`
— is the original filename's stem with a `.pdf` extension, while the stored
paths are exactly `UPLOAD_DIR/<unique stem><lowercased ext>` and
`OUTPUT_DIR/<unique stem>.pdf`, built only from the generated unique stem and
the validated extension (the caller-supplied stem never enters them; the
caller filename can still occur as a coincidental substring, see the
counterexample). -/
theorem c10_amended_naming {α : Type} :
    (∀ (E : UpEnv) (f : String) (r : FileResp), E.filename = some f →
      stemOk E.uniqueStem → (convertHandler E).result = .ok r →
      r.filename = pathStem f ++ ".pdf" ∧
      r.path = pathJoin OUTPUT_DIR (E.uniqueStem ++ ".pdf") ∧
      (convertHandler E).persisted =
        [pathJoin UPLOAD_DIR (E.uniqueStem ++ safe_ext f),
         pathJoin OUTPUT_DIR (E.uniqueStem ++ ".pdf")]) ∧
    (∀ (E : MPEnv) (f : String) (r : MPResp), E.filename = some f →
      stemOk E.uniqueStem → (convertMultipartHandler E).result = .ok r →
      r.content = (build_multipart_file E.boundaryHex "file" (pathStem f ++ ".pdf")
        E.pdfContent "application/pdf").1 ∧
      (convertMultipartHandler E).persisted =
        [pathJoin UPLOAD_DIR (E.uniqueStem ++ safe_ext f),
         pathJoin OUTPUT_DIR (E.uniqueStem ++ ".pdf")]) ∧
    (∀ (E : CPEnv α) (f : String) (out : Nat × α), E.filename = some f →
      stemOk E.uniqueStem → (convertAndParseHandler E).result = .ok out →
      (∀ call ∈ (convertAndParseHandler E).posts, call.filename = pathStem f ++ ".pdf") ∧
      (convertAndParseHandler E).persisted =
        [pathJoin UPLOAD_DIR (E.uniqueStem ++ safe_ext f),
         pathJoin OUTPUT_DIR (E.uniqueStem ++ ".pdf")]) := by
  refine ⟨?_, ?_, ?_⟩
  · intro E f r hf hs hr
    by_cases hne : f = ""
    · simp [convertHandler, hf, hne] at hr
    by_cases hext : safe_ext f ∈ [".ppt", ".pptx"]
    · cases hsave : E.save with
      | failNothingWritten m => simp [convertHandler, hf, hne, hext, hsave] at hr
      | failAfterCreate m => simp [convertHandler, hf, hne, hext, hsave] at hr
      | ok =>
        cases hconv : convert_pptx_to_pdf E.lo
            (pathJoin UPLOAD_DIR (E.uniqueStem ++ safe_ext f)) OUTPUT_DIR with
        | error e =>
          cases e <;> simp [convertHandler, hf, hne, hext, hsave, hconv] at hr
        | ok pdf =>
          have hpdf : pdf = pathJoin OUTPUT_DIR (E.uniqueStem ++ ".pdf") :=
            converted_pdf_path E.lo E.uniqueStem (safe_ext f) pdf hs hext hconv
          simp [convertHandler, hf, hne, hext, hsave, hconv] at hr ⊢
          subst hr
          simp [hpdf, cleanupList, fsRemove]
    · simp [convertHandler, hf, hne, hext] at hr
  · intro E f r hf hs hr
    by_cases hne : f = ""
    · simp [convertMultipartHandler, hf, hne] at hr
    by_cases hext : safe_ext f ∈ [".ppt", ".pptx"]
    · cases hsave : E.save with
      | failNothingWritten m => simp [convertMultipartHandler, hf, hne, hext, hsave] at hr
      | failAfterCreate m => simp [convertMultipartHandler, hf, hne, hext, hsave] at hr
      | ok =>
        cases hconv : convert_pptx_to_pdf E.lo
            (pathJoin UPLOAD_DIR (E.uniqueStem ++ safe_ext f)) OUTPUT_DIR with
        | error e => simp [convertMultipartHandler, hf, hne, hext, hsave, hconv] at hr
        | ok pdf =>
          have hpdf : pdf = pathJoin OUTPUT_DIR (E.uniqueStem ++ ".pdf") :=
            converted_pdf_path E.lo E.uniqueStem (safe_ext f) pdf hs hext hconv
          simp [convertMultipartHandler, hf, hne, hext, hsave, hconv] at hr ⊢
          subst hr
          simp [hpdf]
    · simp [convertMultipartHandler, hf, hne, hext] at hr
  · intro E f out hf hs hr
    by_cases hne : f = ""
    · simp [convertAndParseHandler, hf, hne] at hr
    by_cases hext : safe_ext f ∈ [".ppt", ".pptx"]
    · cases hsave : E.save with
      | failNothingWritten m => simp [convertAndParseHandler, hf, hne, hext, hsave] at hr
      | failAfterCreate m => simp [convertAndParseHandler, hf, hne, hext, hsave] at hr
      | ok =>
        cases hconv : convert_pptx_to_pdf E.lo
            (pathJoin UPLOAD_DIR (E.uniqueStem ++ safe_ext f)) OUTPUT_DIR with
        | error e => simp [convertAndParseHandler, hf, hne, hext, hsave, hconv] at hr
        | ok pdf =>
          have hpdf : pdf = pathJoin OUTPUT_DIR (E.uniqueStem ++ ".pdf") :=
            converted_pdf_path E.lo E.uniqueStem (safe_ext f) pdf hs hext hconv
          cases hres : resolve_parser_url E.queryOverride E.headerOverride E.getenv with
          | error ex =>
            simp [convertAndParseHandler, hf, hne, hext, hsave, hconv, hres] at hr
          | ok target =>
            cases hpqp : parser_query_params E.rawQuery with
            | error ex =>
              simp [convertAndParseHandler, hf, hne, hext, hsave, hconv, hres, hpqp] at hr
            | ok pqp =>
              cases hnet : (proxyPost E.net target (pathStem f ++ ".pdf")
                  (form_data E.tuning) pqp).2 with
              | error e =>
                simp [convertAndParseHandler, hf, hne, hext, hsave, hconv, hres, hpqp,
                  hnet] at hr
              | ok resp =>
                cases hrel : relayJson E.jdecode resp with
                | error ex =>
                  simp [convertAndParseHandler, hf, hne, hext, hsave, hconv, hres, hpqp,
                    hnet, hrel] at hr
                | ok v =>
                  constructor
                  · intro call hcall
                    have hposts : (convertAndParseHandler E).posts =
                        (proxyPost E.net target (pathStem f ++ ".pdf")
                          (form_data E.tuning) pqp).1 := by
                      simp [convertAndParseHandler, hf, hne, hext, hsave, hconv, hres,
                        hpqp, hnet, hrel]
                    rw [hposts] at hcall
                    exact proxyPost_filenames E.net target (pathStem f ++ ".pdf")
                      (form_data E.tuning) pqp call hcall
                  · simp [convertAndParseHandler, hf, hne, hext, hsave, hconv, hres,
                      hpqp, hnet, hrel, hpdf]
    · simp [convertAndParseHandler, hf, hne, hext] at hr

def upEnvDeck : UpEnv := ⟨some "deck.pptx", "aabbccdd", .ok, loOk⟩

theorem c10_amended_naming_witness :
    ("deck.pdf" : String) = pathStem "deck.pptx" ++ ".pdf" ∧
    ("data/outputs/aabbccdd.pdf" : String) = pathJoin OUTPUT_DIR ("aabbccdd" ++ ".pdf") ∧
    (convertHandler upEnvDeck).persisted =
      [pathJoin UPLOAD_DIR ("aabbccdd" ++ safe_ext "deck.pptx"),
       pathJoin OUTPUT_DIR ("aabbccdd" ++ ".pdf")] :=
  (c10_amended_naming (α := Nat)).1 upEnvDeck "deck.pptx"
    ⟨"data/outputs/aabbccdd.pdf", "application/pdf", "deck.pdf"⟩ rfl (by decide) (by decide)

def upEnvEEE : UpEnv :=
  ⟨some "e.pptx", "eeeeeeeeeeeeeeeeeeeeeeeeeeeeeeee", .ok, loOk⟩

/-- C10 counterexample: a successful `/convert` request whose caller-supplied
filename `e.pptx` DOES appear (as a substring) in a stored file path, because
the generated 32-hex-char unique stem happens to end in `e`.  This falsifies
the claim's clause that the caller-supplied filename never appears in any
stored file path. -/
theorem c10_counterexample :
    (convertHandler upEnvEEE).result =
      .ok ⟨"data/outputs/eeeeeeeeeeeeeeeeeeeeeeeeeeeeeeee.pdf", "application/pdf",
        "e.pdf"⟩ ∧
    (convertHandler upEnvEEE).persisted =
      ["data/uploads/eeeeeeeeeeeeeeeeeeeeeeeeeeeeeeee.pptx",
       "data/outputs/eeeeeeeeeeeeeeeeeeeeeeeeeeeeeeee.pdf"] ∧
    strContains "data/uploads/eeeeeeeeeeeeeeeeeeeeeeeeeeeeeeee.pptx" "e.pptx" = true := by
  decide

end Pptx2Pdf
